import Mathlib

/-!
Shallow embedding of the playback core of the A-B audio player:
the AudioPlayer class (transport state, A-B loop bounds, the 100 ms
loop-check interval, resource handling) and the scrub-related part of the
Controls class (drag session on the progress bar).  Times are rationals;
the media element is modelled by the fields it exposes to the player
(audioTime, audioPaused, audioSrc).  Each emission of an event is recorded
in a trace; where observers can re-enter the player, the trace pairs the
event with the state visible at the moment the callbacks run.
-/

namespace ABPlayer

/-- Source utility clamp: Math.min(Math.max(value, min), max). -/
def clamp (value min max : ℚ) : ℚ := Min.min (Max.max value min) max

/-- JavaScript coerces null to 0 in numeric positions: 15 >= null is
15 >= 0, and Math.max(null, 0) is 0.  jsNum is that coercion for a
possibly-null number. -/
def jsNum : Option ℚ → ℚ
  | some x => x
  | none => 0

/-- Error values produced by the underlying media element (DOMException
kinds and MediaError codes), passed around opaquely by the player. -/
inductive MediaErr
  | notSupported
  | aborted
  | network
  | decode
  | denied
  | unknown
deriving DecidableEq, Repr

/-- Payload of the error event.  The code forwards the underlying element
error unchanged (raw).  The remaining constructors are the classified
taxonomy the specification describes (LoadError, NoSourceError,
CapabilityError); no code in the repository ever constructs them. -/
inductive ErrorPayload
  | raw (e : MediaErr)
  | noSourceError
  | loadError (e : MediaErr)
  | capabilityError
deriving DecidableEq, Repr

/-- What currentUrl / audio.src can hold: an object URL created by
URL.createObjectURL (identified by its allocation index), or a plain
string URL. -/
inductive UrlRef
  | obj (id : Nat)
  | str (u : String)
deriving DecidableEq, Repr

/-- The two source shapes loadAudio accepts: a File object (for which a
fresh object URL is created) or a string URL. -/
inductive AudioSource
  | file
  | url (u : String)
deriving DecidableEq, Repr

/-- Events the player emits on its listener map. -/
inductive Event
  | loadstart
  | loadedmetadata (d : ℚ)
  | loaded
  | loopclear
  | loopaset (t : ℚ)
  | loopbset (t : ℚ)
  | looptoggle (b : Bool)
  | looped
  | timeupdate (t : ℚ)
  | error (e : ErrorPayload)
  | play
  | pause
  | ended
deriving DecidableEq, Repr

/-- The fields of the AudioPlayer instance, together with the parts of the
wrapped media element the class reads and writes.  nextUrl and revoked
model the object-URL allocator: ids below nextUrl have been created, those
in revoked have been passed to URL.revokeObjectURL. -/
structure PlayerState where
  isPlaying : Bool
  currentTime : ℚ
  duration : ℚ
  playbackRate : ℚ
  volume : ℚ
  loopA : Option ℚ
  loopB : Option ℚ
  isLooping : Bool
  loopCheckActive : Bool
  audioTime : ℚ
  audioPaused : Bool
  audioSrc : Option UrlRef
  listenersCleared : Bool
  currentFile : Bool
  currentUrl : Option UrlRef
  nextUrl : Nat
  revoked : List Nat
deriving DecidableEq, Repr

/-- The state the constructor produces (fresh element, nothing loaded). -/
def initState : PlayerState where
  isPlaying := false
  currentTime := 0
  duration := 0
  playbackRate := 1
  volume := 1
  loopA := none
  loopB := none
  isLooping := false
  loopCheckActive := false
  audioTime := 0
  audioPaused := true
  audioSrc := none
  listenersCleared := false
  currentFile := false
  currentUrl := none
  nextUrl := 0
  revoked := []

namespace AudioPlayer

/-- seek(time): writes clamp(time, 0, duration) into audio.currentTime.
The cached this.currentTime is not written here; it is refreshed only by
the timeupdate handler. -/
def seek (s : PlayerState) (time : ℚ) : PlayerState :=
  { s with audioTime := clamp time 0 s.duration }

/-- seekBy(offset): seek(this.currentTime + offset). -/
def seekBy (s : PlayerState) (offset : ℚ) : PlayerState :=
  seek s (s.currentTime + offset)

/-- stopLoopCheck(): clearInterval and null the handle; a no-op when no
interval is scheduled. -/
def stopLoopCheck (s : PlayerState) : PlayerState :=
  { s with loopCheckActive := false }

/-- startLoopCheck(): only when isLooping and both bounds are set, cancel
any prior interval and schedule a new one. -/
def startLoopCheck (s : PlayerState) : PlayerState :=
  if s.isLooping ∧ s.loopA.isSome ∧ s.loopB.isSome then
    { stopLoopCheck s with loopCheckActive := true }
  else s

/-- One firing of the closure startLoopCheck hands to setInterval (every
100 ms); it runs only while the interval handle is live.  The closure
reads the cached this.currentTime, which only a timeupdate refreshes, and
on a crossing issues seek(loopA) and emits looped.  It installs no guard
against firing again for the same crossing. -/
def loopCheckTick (s : PlayerState) : PlayerState × List Event :=
  if s.loopCheckActive ∧ s.isLooping ∧ s.currentTime ≥ jsNum s.loopB then
    (seek s (jsNum s.loopA), [Event.looped])
  else (s, [])

/-- handleTimeUpdate(): copies the element time into this.currentTime and
emits timeupdate. -/
def handleTimeUpdate (s : PlayerState) : PlayerState × List Event :=
  ({ s with currentTime := s.audioTime },
   [Event.timeupdate s.audioTime])

/-- pause(): this.audio.pause() then stopLoopCheck().  The pause event the
element later fires (which flips isPlaying) is an asynchronous reaction
outside this call. -/
def pause (s : PlayerState) : PlayerState :=
  stopLoopCheck { s with audioPaused := true }

/-- play(): awaits this.audio.play(), then starts the loop check; a
rejection of the element promise (for example the NotSupportedError
produced when no source is attached) is caught and emitted unchanged on
the error channel, never rethrown.  outcome is the result of the element
promise. -/
def play (s : PlayerState) (outcome : Option MediaErr) : PlayerState × List Event :=
  match outcome with
  | none => (startLoopCheck { s with audioPaused := false }, [])
  | some e => (s, [Event.error (ErrorPayload.raw e)])

/-- setLoopA(time = null): assign loopA, emit loopaset, then swap with
loopB when the new A exceeds it, emitting loopbset for the corrected B.
Each emission is paired with the player state observers read when that
callback runs. -/
def setLoopA (s : PlayerState) (time : Option ℚ) :
    PlayerState × List (Event × PlayerState) :=
  let a := match time with
    | some t => t
    | none => s.currentTime
  let s1 := { s with loopA := some a }
  match s1.loopB with
  | some b =>
    if a > b then
      let s2 := { s1 with loopA := some b, loopB := some a }
      (s2, [(Event.loopaset a, s1), (Event.loopbset a, s2)])
    else (s1, [(Event.loopaset a, s1)])
  | none => (s1, [(Event.loopaset a, s1)])

/-- setLoopB(time = null): assign loopB, emit loopbset, then swap with
loopA when the new B undercuts it, emitting loopaset for the corrected A. -/
def setLoopB (s : PlayerState) (time : Option ℚ) :
    PlayerState × List (Event × PlayerState) :=
  let b := match time with
    | some t => t
    | none => s.currentTime
  let s1 := { s with loopB := some b }
  match s1.loopA with
  | some a =>
    if b < a then
      let s2 := { s1 with loopA := some b, loopB := some a }
      (s2, [(Event.loopbset b, s1), (Event.loopaset b, s2)])
    else (s1, [(Event.loopbset b, s1)])
  | none => (s1, [(Event.loopbset b, s1)])

/-- clearLoop(): null both bounds, drop isLooping, stop the check, emit
loopclear. -/
def clearLoop (s : PlayerState) : PlayerState × List Event :=
  (stopLoopCheck { s with loopA := none, loopB := none, isLooping := false },
   [Event.loopclear])

/-- resetLoopPoints(): delegates to clearLoop. -/
def resetLoopPoints (s : PlayerState) : PlayerState × List Event :=
  clearLoop s

/-- loadAudio(source): emit loadstart, bind the source (a File gets a
fresh object URL; note the previously held object URL is merely
overwritten, never revoked), await metadata.  On success the permanent
loadedmetadata handler stores the duration, then resetLoopPoints runs and
loaded is emitted; on failure the caught error is emitted raw and
rethrown (the Bool records the rethrow).  outcome stands for the awaited
element round trip: ok duration, or the element error. -/
def loadAudio (s : PlayerState) (src : AudioSource) (outcome : Except MediaErr ℚ) :
    PlayerState × List Event × Bool :=
  let s1 := match src with
    | AudioSource.file =>
        { s with audioSrc := some (UrlRef.obj s.nextUrl),
                 currentFile := true,
                 currentUrl := some (UrlRef.obj s.nextUrl),
                 nextUrl := s.nextUrl + 1 }
    | AudioSource.url u =>
        { s with audioSrc := some (UrlRef.str u),
                 currentFile := false,
                 currentUrl := some (UrlRef.str u) }
  match outcome with
  | Except.ok d =>
      let s2 := { s1 with duration := d }
      ((clearLoop s2).1,
       [Event.loadstart, Event.loadedmetadata d, Event.loopclear, Event.loaded],
       false)
  | Except.error e =>
      (s1, [Event.loadstart, Event.error (ErrorPayload.raw e)], true)

/-- handleError(event): emits the element error unchanged; no state is
touched. -/
def handleError (s : PlayerState) (e : MediaErr) : PlayerState × List Event :=
  (s, [Event.error (ErrorPayload.raw e)])

/-- destroy(): pause, stopLoopCheck, clear the listener map, revoke the
object URL when the current source was a File (URL.revokeObjectURL of an
already revoked URL is a no-op, hence the membership-respecting insert),
then detach the element source, which resets the element position. -/
def destroy (s : PlayerState) : PlayerState :=
  let s1 := stopLoopCheck (pause s)
  let s2 := { s1 with listenersCleared := true }
  let s3 :=
    match s2.currentUrl, s2.currentFile with
    | some (UrlRef.obj u), true => { s2 with revoked := s2.revoked.insert u }
    | _, _ => s2
  { s3 with audioSrc := none, audioTime := 0 }

end AudioPlayer

/-- Object-URL handles created so far and not yet revoked. -/
def liveHandles (s : PlayerState) : List Nat :=
  (List.range s.nextUrl).filter (fun u => !(s.revoked.contains u))

/-- The ordering invariant of the loop bounds: when both are set, A is at
most B. -/
def loopOrdered (s : PlayerState) : Prop :=
  ∀ x y : ℚ, s.loopA = some x → s.loopB = some y → x ≤ y

/-- The scrub-relevant fields of the Controls instance:
progressFillWidth is the numeric percent value written into
progressFill.style.width, displayedTime the time rendered into the
currentTime label. -/
structure ControlsState where
  isDragging : Bool
  progressFillWidth : ℚ
  displayedTime : ℚ
deriving DecidableEq, Repr

namespace Controls

/-- updateProgressVisual(percentage): documented to take a percent in
0..100; clamps to that range and writes the fill width. -/
def updateProgressVisual (c : ControlsState) (percentage : ℚ) : ControlsState :=
  { c with progressFillWidth := clamp percentage 0 100 }

/-- handleDrag(event): ignored when not dragging or the duration is 0.
pct is the result of getPercentageFromMouse, a fraction in 0..1; the
provisional time pct * duration is rendered, and pct is passed unscaled
to updateProgressVisual (which expects 0..100). -/
def handleDrag (p : PlayerState) (c : ControlsState) (pct : ℚ) : ControlsState :=
  if ¬ c.isDragging ∨ p.duration = 0 then c
  else
    { updateProgressVisual c pct with displayedTime := pct * p.duration }

/-- startDragging(event): mark the drag active (pauseUpdates clears an
interval that is always null) and process the initial position. -/
def startDragging (p : PlayerState) (c : ControlsState) (pct : ℚ) : ControlsState :=
  handleDrag p { c with isDragging := true } pct

/-- stopDragging(): when a drag is active, end it, read the committed
target back from the fill width as parseFloat(style.width) / 100 *
duration, and issue exactly one player.seek with it.  The returned option
is the time passed to seek, none when no seek was issued.  There is no
duration guard on this path. -/
def stopDragging (p : PlayerState) (c : ControlsState) :
    ControlsState × PlayerState × Option ℚ :=
  if ¬ c.isDragging then (c, p, none)
  else
    let newTime := c.progressFillWidth / 100 * p.duration
    ({ c with isDragging := false }, AudioPlayer.seek p newTime, some newTime)

/-- updateProgress(currentTime), the non-drag rendering path: note that
unlike handleDrag it scales the fraction to a 0..100 percent before
calling updateProgressVisual. -/
def updateProgress (p : PlayerState) (c : ControlsState) (time : ℚ) : ControlsState :=
  if p.duration = 0 then c
  else
    { updateProgressVisual c (time / p.duration * 100) with displayedTime := time }

end Controls

/-- The loop-enforcement situation of the specification example: loopA=10,
loopB=15, looping and playing, the check scheduled, and the last delivered
tick reported currentTime = 15.05. -/
def C1state : PlayerState :=
  { initState with
      duration := 120
      currentTime := 301 / 20
      audioTime := 301 / 20
      isPlaying := true
      loopA := some 10
      loopB := some 15
      isLooping := true
      loopCheckActive := true }

/-- The controls fields reset() establishes: no drag, fill width 0
percent, time label at 0. -/
def controlsInit : ControlsState where
  isDragging := false
  progressFillWidth := 0
  displayedTime := 0

/-- A player holding a loaded 120 second track. -/
def C2player : PlayerState := { initState with duration := 120 }

/-- A scrub session begun on that track with the pointer at the middle of
the bar (getPercentageFromMouse fraction 1/2). -/
def C2drag : ControlsState := Controls.startDragging C2player controlsInit (1 / 2)

/-- A player on a 120 second track with loopB already set to 5. -/
def C3state : PlayerState := { initState with duration := 120, loopB := some 5 }

/-- A player on a 120 second track with only loopB set, to 5. -/
def C4state : PlayerState := { initState with duration := 120, loopB := some 5 }

/-- A player on a 120 second track with the clock at 60. -/
def C6state : PlayerState := { initState with duration := 120, currentTime := 60 }

/-- A fresh player after one successful File load: it holds object URL 0. -/
def C7one : PlayerState :=
  (AudioPlayer.loadAudio initState AudioSource.file (Except.ok 100)).1

/-- Two successive successful File loads from a fresh player: the second
load replaces object URL 0 with object URL 1. -/
def C7state : PlayerState :=
  (AudioPlayer.loadAudio C7one AudioSource.file (Except.ok 100)).1

/-- A playing, looping player on a 120 second track whose loopB (500)
lies past the end of the track. -/
def C10state : PlayerState :=
  { initState with
      duration := 120
      currentTime := 60
      audioTime := 60
      isPlaying := true
      loopA := some 2
      loopB := some 500
      isLooping := true
      loopCheckActive := true }

/-- Helper: one firing of the scheduled check when the crossing condition
holds: it seeks to loopA and emits looped. -/
theorem loopCheckTick_fires (s : PlayerState)
    (h : s.loopCheckActive = true ∧ s.isLooping = true ∧ s.currentTime ≥ jsNum s.loopB) :
    AudioPlayer.loopCheckTick s = (AudioPlayer.seek s (jsNum s.loopA), [Event.looped]) := by
  unfold AudioPlayer.loopCheckTick
  rw [if_pos h]

/-- Helper: a firing whose condition fails changes nothing and emits
nothing. -/
theorem loopCheckTick_noFire (s : PlayerState)
    (h : ¬ (s.loopCheckActive = true ∧ s.isLooping = true ∧ s.currentTime ≥ jsNum s.loopB)) :
    AudioPlayer.loopCheckTick s = (s, []) := by
  unfold AudioPlayer.loopCheckTick
  rw [if_neg h]

/-- C1: the claimed once-per-crossing guard does not exist.  From the
specification example state, the first interval firing seeks and emits
looped, but leaves the cached currentTime stale at 15.05; a second firing
with no timeupdate in between (the situation when loopB - loopA is smaller
than one check interval, or the element tick lags the 100 ms cadence)
fires again and emits looped a second time for the same crossing. -/
theorem C1_counterexample :
    (AudioPlayer.loopCheckTick C1state).2 = [Event.looped] ∧
    (AudioPlayer.loopCheckTick C1state).1.audioTime = 10 ∧
    (AudioPlayer.loopCheckTick C1state).1.currentTime = 301 / 20 ∧
    (AudioPlayer.loopCheckTick (AudioPlayer.loopCheckTick C1state).1).2 =
      [Event.looped] := by
  norm_num [AudioPlayer.loopCheckTick, AudioPlayer.seek, C1state, initState, jsNum, clamp]

/-- C1 amended: while looping with the check scheduled, a firing that
samples currentTime at or past loopB issues seek(loopA) and emits looped,
leaving the element at clamp loopA 0 duration but the cached currentTime
unrefreshed; consequently the next firing emits looped again unless a
timeupdate intervenes, and once a timeupdate delivers the post-seek
position (below loopB) the check no longer fires. -/
theorem C1_corrected (s : PlayerState) (a b : ℚ)
    (hA : s.loopA = some a) (hB : s.loopB = some b)
    (hrun : s.loopCheckActive = true) (hloop : s.isLooping = true)
    (hcross : b ≤ s.currentTime) :
    (AudioPlayer.loopCheckTick s).2 = [Event.looped] ∧
    (AudioPlayer.loopCheckTick s).1.audioTime = clamp a 0 s.duration ∧
    (AudioPlayer.loopCheckTick s).1.currentTime = s.currentTime ∧
    (AudioPlayer.loopCheckTick (AudioPlayer.loopCheckTick s).1).2 = [Event.looped] ∧
    (clamp a 0 s.duration < b →
      (AudioPlayer.loopCheckTick
        (AudioPlayer.handleTimeUpdate (AudioPlayer.loopCheckTick s).1).1).2 = []) := by
  have hc : s.loopCheckActive = true ∧ s.isLooping = true ∧ s.currentTime ≥ jsNum s.loopB :=
    ⟨hrun, hloop, by rw [hB]; exact hcross⟩
  have h1 := loopCheckTick_fires s hc
  have hc2 : (AudioPlayer.seek s (jsNum s.loopA)).loopCheckActive = true ∧
      (AudioPlayer.seek s (jsNum s.loopA)).isLooping = true ∧
      (AudioPlayer.seek s (jsNum s.loopA)).currentTime ≥
        jsNum (AudioPlayer.seek s (jsNum s.loopA)).loopB :=
    ⟨hrun, hloop, hc.2.2⟩
  have h2 := loopCheckTick_fires _ hc2
  refine ⟨by simp [h1], ?_, by simp [h1, AudioPlayer.seek], by simp [h1, h2], ?_⟩
  · rw [h1]
    show clamp (jsNum s.loopA) 0 s.duration = clamp a 0 s.duration
    rw [hA]
    rfl
  · intro hlt
    have hnot : ¬ ((AudioPlayer.handleTimeUpdate (AudioPlayer.seek s (jsNum s.loopA))).1.loopCheckActive = true ∧
        (AudioPlayer.handleTimeUpdate (AudioPlayer.seek s (jsNum s.loopA))).1.isLooping = true ∧
        (AudioPlayer.handleTimeUpdate (AudioPlayer.seek s (jsNum s.loopA))).1.currentTime ≥
          jsNum (AudioPlayer.handleTimeUpdate (AudioPlayer.seek s (jsNum s.loopA))).1.loopB) := by
      intro hcon
      have h3 : jsNum s.loopB ≤ clamp (jsNum s.loopA) 0 s.duration := hcon.2.2
      rw [hA, hB] at h3
      exact absurd h3 (not_le.mpr hlt)
    rw [h1]
    show (AudioPlayer.loopCheckTick
      (AudioPlayer.handleTimeUpdate (AudioPlayer.seek s (jsNum s.loopA))).1).2 = []
    rw [loopCheckTick_noFire _ hnot]

/-- C1 witness: the amended statement evaluated at the example state. -/
theorem C1_witness :
    (AudioPlayer.loopCheckTick C1state).2 = [Event.looped] ∧
    ((10 : ℚ) < 15 →
      (AudioPlayer.loopCheckTick
        (AudioPlayer.handleTimeUpdate (AudioPlayer.loopCheckTick C1state).1).1).2 = []) := by
  have h := C1_corrected C1state 10 15 rfl rfl rfl rfl (by norm_num [C1state, initState])
  refine ⟨h.1, fun _ => h.2.2.2.2 ?_⟩
  show clamp 10 0 C1state.duration < 15
  norm_num [clamp, C1state, initState]

/-- Helper: after setLoopA the bounds are ordered whenever both are set. -/
theorem setLoopA_ordered (s : PlayerState) (t : Option ℚ) :
    loopOrdered (AudioPlayer.setLoopA s t).1 := by
  intro x y hx hy
  rcases t with _ | tv <;>
  · unfold AudioPlayer.setLoopA at hx hy
    rcases hB : s.loopB with _ | b <;> simp [hB] at hx hy <;> split_ifs at hx hy <;>
      simp_all <;> linarith

/-- Helper: after setLoopB the bounds are ordered whenever both are set. -/
theorem setLoopB_ordered (s : PlayerState) (t : Option ℚ) :
    loopOrdered (AudioPlayer.setLoopB s t).1 := by
  intro x y hx hy
  rcases t with _ | tv <;>
  · unfold AudioPlayer.setLoopB at hx hy
    rcases hA : s.loopA with _ | a <;> simp [hA] at hx hy <;> split_ifs at hx hy <;>
      simp_all <;> linarith

/-- Helper: every setLoopA emission is paired with a state in which the
bound named by the event already holds the emitted value. -/
theorem setLoopA_committed (s : PlayerState) (t : Option ℚ) :
    ∀ p ∈ (AudioPlayer.setLoopA s t).2,
      (∀ x : ℚ, p.1 = Event.loopaset x → p.2.loopA = some x) ∧
      (∀ x : ℚ, p.1 = Event.loopbset x → p.2.loopB = some x) := by
  intro p hp
  rcases t with _ | tv <;>
  · unfold AudioPlayer.setLoopA at hp
    rcases hB : s.loopB with _ | b
    · simp [hB] at hp
      subst hp
      simp
    · simp only [hB] at hp
      split_ifs at hp with h <;> simp at hp
      · rcases hp with rfl | rfl <;> simp
      · subst hp
        simp

/-- Helper: every setLoopB emission is paired with a state in which the
bound named by the event already holds the emitted value. -/
theorem setLoopB_committed (s : PlayerState) (t : Option ℚ) :
    ∀ p ∈ (AudioPlayer.setLoopB s t).2,
      (∀ x : ℚ, p.1 = Event.loopaset x → p.2.loopA = some x) ∧
      (∀ x : ℚ, p.1 = Event.loopbset x → p.2.loopB = some x) := by
  intro p hp
  rcases t with _ | tv <;>
  · unfold AudioPlayer.setLoopB at hp
    rcases hA : s.loopA with _ | a
    · simp [hA] at hp
      subst hp
      simp
    · simp only [hA] at hp
      split_ifs at hp with h <;> simp at hp
      · rcases hp with rfl | rfl <;> simp
      · subst hp
        simp

/-- Helper: the state paired with the final setLoopA emission is ordered. -/
theorem setLoopA_last_ordered (s : PlayerState) (t : Option ℚ) :
    ∀ p, (AudioPlayer.setLoopA s t).2.getLast? = some p → loopOrdered p.2 := by
  intro p hp
  rcases t with _ | tv <;>
  · unfold AudioPlayer.setLoopA at hp
    rcases hB : s.loopB with _ | b
    · simp [hB] at hp
      subst hp
      intro x y hx hy
      simp_all
    · simp only [hB] at hp
      split_ifs at hp with h <;> simp at hp <;> subst hp <;> intro x y hx hy <;>
        simp_all <;> linarith

/-- Helper: the state paired with the final setLoopB emission is ordered. -/
theorem setLoopB_last_ordered (s : PlayerState) (t : Option ℚ) :
    ∀ p, (AudioPlayer.setLoopB s t).2.getLast? = some p → loopOrdered p.2 := by
  intro p hp
  rcases t with _ | tv <;>
  · unfold AudioPlayer.setLoopB at hp
    rcases hA : s.loopA with _ | a
    · simp [hA] at hp
      subst hp
      intro x y hx hy
      simp_all
    · simp only [hA] at hp
      split_ifs at hp with h <;> simp at hp <;> subst hp <;> intro x y hx hy <;>
        simp_all <;> linarith

/-- C2: the scrub gesture evaluated at the failing input.  Dragging to the
middle of a 120 second track renders the provisional time 60, but the
release commits seek(3/5): handleDrag hands the 0..1 pointer fraction
straight to updateProgressVisual, whose documented domain is a 0..100
percent (the non-drag path updateProgress scales by 100 first), and
stopDragging reads the width back dividing by 100.  Moreover, with the
duration unknown (0) the release path still issues a seek of 0, because
handleDrag guards on duration = 0 but stopDragging does not. -/
theorem C2_code_bug :
    C2drag.isDragging = true ∧
    C2drag.displayedTime = 60 ∧
    (Controls.stopDragging C2player C2drag).2.2 = some (3 / 5) ∧
    (Controls.stopDragging initState
      (Controls.startDragging initState controlsInit (1 / 2))).2.2 = some 0 := by
  norm_num [C2drag, C2player, controlsInit, Controls.startDragging, Controls.handleDrag,
    Controls.stopDragging, Controls.updateProgressVisual, clamp, initState,
    max_def, min_def]

/-- C3: setting A past an existing B swaps the bounds rather than
rejecting them, emitting loopbset for the bound the swap moved (paired
with the post-swap state); symmetrically for setLoopB; and after either
command, whenever both bounds are set, loopA is at most loopB. -/
theorem C3_confirmed (s : PlayerState) (a b : ℚ)
    (hB : s.loopB = some b) (hab : b < a) :
    ((AudioPlayer.setLoopA s (some a)).1.loopA = some b ∧
     (AudioPlayer.setLoopA s (some a)).1.loopB = some a ∧
     (Event.loopbset a, (AudioPlayer.setLoopA s (some a)).1) ∈
       (AudioPlayer.setLoopA s (some a)).2) ∧
    (∀ s2 : PlayerState, s2.loopA = some a →
      (AudioPlayer.setLoopB s2 (some b)).1.loopA = some b ∧
      (AudioPlayer.setLoopB s2 (some b)).1.loopB = some a ∧
      (Event.loopaset b, (AudioPlayer.setLoopB s2 (some b)).1) ∈
        (AudioPlayer.setLoopB s2 (some b)).2) ∧
    (∀ s3 : PlayerState, ∀ t : Option ℚ,
      loopOrdered (AudioPlayer.setLoopA s3 t).1 ∧
      loopOrdered (AudioPlayer.setLoopB s3 t).1) := by
  refine ⟨by simp [AudioPlayer.setLoopA, hB, hab], ?_, ?_⟩
  · intro s2 hA2
    simp [AudioPlayer.setLoopB, hA2, hab]
  · intro s3 t
    exact ⟨setLoopA_ordered s3 t, setLoopB_ordered s3 t⟩

/-- C3 witness: the swap evaluated with loopB = 5 and setLoopA 10. -/
theorem C3_witness :
    (AudioPlayer.setLoopA C3state (some 10)).1.loopA = some 5 ∧
    (AudioPlayer.setLoopA C3state (some 10)).1.loopB = some 10 := by
  have h := C3_confirmed C3state 10 5 rfl (by norm_num)
  exact ⟨h.1.1, h.1.2.1⟩

/-- C4: observers are not insulated from the half-mutated state: in
setLoopA the loopaset emission precedes the ordering swap, so its
callbacks run against loopA = 10, loopB = 5 — both bounds set with
loopA > loopB, violating the claimed postcondition at notification
time. -/
theorem C4_counterexample :
    (AudioPlayer.setLoopA C4state (some 10)).2.map
        (fun p => (p.1, p.2.loopA, p.2.loopB)) =
      [(Event.loopaset 10, some 10, some 5),
       (Event.loopbset 10, some 5, some 10)] ∧
    ¬ ((10 : ℚ) ≤ 5) := by
  norm_num [AudioPlayer.setLoopA, C4state, initState]

/-- C4 amended: each bound event is emitted only after the assignment it
reports is committed — the state paired with loopaset x has loopA = x and
with loopbset x has loopB = x — and the state at the final emission, like
the returned state, satisfies the ordering invariant; but the first
emission of a swapping call runs before the swap, so a loopaset or
loopbset observer can momentarily see both bounds set with
loopA > loopB. -/
theorem C4_corrected (s : PlayerState) (t : Option ℚ) :
    (∀ p ∈ (AudioPlayer.setLoopA s t).2,
      (∀ x : ℚ, p.1 = Event.loopaset x → p.2.loopA = some x) ∧
      (∀ x : ℚ, p.1 = Event.loopbset x → p.2.loopB = some x)) ∧
    (∀ p ∈ (AudioPlayer.setLoopB s t).2,
      (∀ x : ℚ, p.1 = Event.loopaset x → p.2.loopA = some x) ∧
      (∀ x : ℚ, p.1 = Event.loopbset x → p.2.loopB = some x)) ∧
    (∀ p, (AudioPlayer.setLoopA s t).2.getLast? = some p → loopOrdered p.2) ∧
    (∀ p, (AudioPlayer.setLoopB s t).2.getLast? = some p → loopOrdered p.2) ∧
    loopOrdered (AudioPlayer.setLoopA s t).1 ∧
    loopOrdered (AudioPlayer.setLoopB s t).1 :=
  ⟨setLoopA_committed s t, setLoopB_committed s t,
   setLoopA_last_ordered s t, setLoopB_last_ordered s t,
   setLoopA_ordered s t, setLoopB_ordered s t⟩

/-- C5: a successful load always clears both loop bounds and isLooping,
whatever the prior session state; a failed load, like a transient media
error delivered to handleError, leaves the loop configuration (and for
handleError the whole state) unchanged. -/
theorem C5_confirmed (s : PlayerState) (src : AudioSource) (d : ℚ) (e : MediaErr) :
    ((AudioPlayer.loadAudio s src (Except.ok d)).1.loopA = none ∧
     (AudioPlayer.loadAudio s src (Except.ok d)).1.loopB = none ∧
     (AudioPlayer.loadAudio s src (Except.ok d)).1.isLooping = false) ∧
    ((AudioPlayer.loadAudio s src (Except.error e)).1.loopA = s.loopA ∧
     (AudioPlayer.loadAudio s src (Except.error e)).1.loopB = s.loopB ∧
     (AudioPlayer.loadAudio s src (Except.error e)).1.isLooping = s.isLooping) ∧
    (AudioPlayer.handleError s e).1 = s := by
  rcases src <;>
    simp [AudioPlayer.loadAudio, AudioPlayer.clearLoop, AudioPlayer.stopLoopCheck,
      AudioPlayer.handleError]

/-- C6: seek writes clamp(time, 0, duration) into the element position,
times at or below 0 land on 0 and times at or past the duration land on
the duration (for a nonnegative duration), and seekBy offset is exactly
seek at currentTime + offset. -/
theorem C6_confirmed (s : PlayerState) (t d : ℚ) (hdur : 0 ≤ s.duration) :
    (AudioPlayer.seek s t).audioTime = clamp t 0 s.duration ∧
    (t ≤ 0 → (AudioPlayer.seek s t).audioTime = 0) ∧
    (s.duration ≤ t → (AudioPlayer.seek s t).audioTime = s.duration) ∧
    AudioPlayer.seekBy s d = AudioPlayer.seek s (s.currentTime + d) := by
  refine ⟨rfl, ?_, ?_, rfl⟩
  · intro h
    simp only [AudioPlayer.seek, clamp]
    rw [max_eq_right h, min_eq_left hdur]
  · intro h
    simp only [AudioPlayer.seek, clamp]
    rw [min_eq_right (le_trans h (le_max_left t 0))]

/-- C6 witness: the specification examples on a 120 second track. -/
theorem C6_witness :
    (AudioPlayer.seek C6state (-5)).audioTime = 0 ∧
    (AudioPlayer.seek C6state 1000).audioTime = C6state.duration ∧
    C6state.duration = 120 := by
  refine ⟨?_, ?_, rfl⟩
  · exact (C6_confirmed C6state (-5) 0 (by norm_num [C6state, initState])).2.1
      (by norm_num)
  · exact (C6_confirmed C6state 1000 0 (by norm_num [C6state, initState])).2.2.1
      (by norm_num [C6state, initState])

/-- C7: loading a replacement File does not release the handle it
replaces.  After two File loads the player holds object URL 1, yet object
URL 0 — created for the replaced source — is still live, and it remains
live even after destroy(), which revokes only the currently held URL. -/
theorem C7_counterexample :
    C7state.currentUrl = some (UrlRef.obj 1) ∧
    liveHandles C7state = [0, 1] ∧
    liveHandles (AudioPlayer.destroy C7state) = [0] := by
  refine ⟨rfl, rfl, rfl⟩

/-- C7 amended: destroy() revokes the object URL currently held for a
File source, but loadAudio never revokes anything: the handle replaced by
a new load stays unreleased. -/
theorem C7_corrected (s : PlayerState) (src : AudioSource) (r : Except MediaErr ℚ)
    (u : Nat) (hu : s.currentUrl = some (UrlRef.obj u)) (hf : s.currentFile = true) :
    u ∈ (AudioPlayer.destroy s).revoked ∧
    (AudioPlayer.loadAudio s src r).1.revoked = s.revoked := by
  constructor
  · simp [AudioPlayer.destroy, AudioPlayer.pause, AudioPlayer.stopLoopCheck, hu, hf,
      List.mem_insert_iff]
  · rcases src <;> rcases r <;>
      simp [AudioPlayer.loadAudio, AudioPlayer.clearLoop, AudioPlayer.stopLoopCheck]

/-- C7 witness: the amended statement evaluated after one File load. -/
theorem C7_witness :
    0 ∈ (AudioPlayer.destroy C7one).revoked ∧
    (AudioPlayer.loadAudio C7one AudioSource.file (Except.ok 100)).1.revoked =
      C7one.revoked :=
  C7_corrected C7one AudioSource.file (Except.ok 100) 0 rfl rfl

/-- C8: with no source attached (fresh player), the element promise
rejects with NotSupportedError and play() emits that raw error on the
error channel; no NoSourceError classification is ever produced — the
taxonomy of the specification does not exist in the code. -/
theorem C8_counterexample :
    initState.audioSrc = none ∧
    (AudioPlayer.play initState (some MediaErr.notSupported)).2 =
      [Event.error (ErrorPayload.raw MediaErr.notSupported)] ∧
    Event.error ErrorPayload.noSourceError ∉
      (AudioPlayer.play initState (some MediaErr.notSupported)).2 := by
  refine ⟨rfl, rfl, ?_⟩
  simp [AudioPlayer.play]

/-- C8 amended: a failing play() is reported, not thrown — the call
returns normally with the state unchanged and exactly one error event
carrying the raw underlying media error; the payload is never the
NoSourceError of the specification taxonomy, which the code never
constructs. -/
theorem C8_corrected (s : PlayerState) (e : MediaErr) :
    (AudioPlayer.play s (some e)).1 = s ∧
    (AudioPlayer.play s (some e)).2 = [Event.error (ErrorPayload.raw e)] ∧
    ∀ ev ∈ (AudioPlayer.play s (some e)).2,
      ev ≠ Event.error ErrorPayload.noSourceError := by
  refine ⟨rfl, rfl, ?_⟩
  simp [AudioPlayer.play]

/-- C9: destroy is idempotent — a second destroy reproduces the state of
the first and raises nothing — and after destroy the loop-check interval
is gone: a firing changes nothing and emits nothing, even after the
element clock advances to an arbitrary time and a timeupdate is
delivered. -/
theorem C9_confirmed (s : PlayerState) (t : ℚ) :
    AudioPlayer.destroy (AudioPlayer.destroy s) = AudioPlayer.destroy s ∧
    AudioPlayer.loopCheckTick (AudioPlayer.destroy s) = (AudioPlayer.destroy s, []) ∧
    (AudioPlayer.loopCheckTick
      (AudioPlayer.handleTimeUpdate
        { AudioPlayer.destroy s with audioTime := t }).1).2 = [] := by
  rcases hu : s.currentUrl with _ | (u | v) <;> cases hf : s.currentFile <;>
    simp [AudioPlayer.destroy, AudioPlayer.pause, AudioPlayer.stopLoopCheck,
      AudioPlayer.loopCheckTick, AudioPlayer.handleTimeUpdate, hu, hf,
      List.insert_of_mem, List.mem_insert_self]

/-- C10: the loop bounds are stored exactly as supplied — no clamping or
validation against the track duration, only the ordering swap decides
which slot the value lands in — and while the cached time cannot exceed
the duration, a loopB past the duration is never reached: the check does
not fire. -/
theorem C10_confirmed (s : PlayerState) (t b : ℚ)
    (hB : s.loopB = some b) (hct : s.currentTime ≤ s.duration)
    (hpast : s.duration < b) :
    ((AudioPlayer.setLoopA s (some t)).1.loopA = some t ∨
     (AudioPlayer.setLoopA s (some t)).1.loopB = some t) ∧
    ((AudioPlayer.setLoopB s (some t)).1.loopB = some t ∨
     (AudioPlayer.setLoopB s (some t)).1.loopA = some t) ∧
    AudioPlayer.loopCheckTick s = (s, []) := by
  refine ⟨?_, ?_, ?_⟩
  · unfold AudioPlayer.setLoopA
    simp only [hB]
    split_ifs <;> simp
  · unfold AudioPlayer.setLoopB
    rcases hA : s.loopA with _ | a
    · simp [hA]
    · simp only [hA]
      split_ifs <;> simp
  · refine loopCheckTick_noFire s ?_
    intro hcon
    have h3 : jsNum s.loopB ≤ s.currentTime := hcon.2.2
    rw [hB] at h3
    exact absurd h3 (not_le.mpr (lt_of_le_of_lt hct hpast))

/-- C10 witness: a negative bound is stored as given, and with loopB at
500 on a 120 second track the scheduled check never fires. -/
theorem C10_witness :
    ((AudioPlayer.setLoopA C10state (some (-7))).1.loopA = some (-7) ∨
     (AudioPlayer.setLoopA C10state (some (-7))).1.loopB = some (-7)) ∧
    AudioPlayer.loopCheckTick C10state = (C10state, []) := by
  have h := C10_confirmed C10state (-7) 500 rfl
    (by norm_num [C10state, initState]) (by norm_num [C10state, initState])
  exact ⟨h.1, h.2.2⟩

end ABPlayer
